import Mathlib

/-!
Verification of the Categories CRUD controller
(`src/graphql-fe/src/components/Categories.tsx`).

The component is shallowly embedded: the two `useState` hooks become a
`ControllerState`, the event handlers become pure transition functions that
return the next state together with the remote call they dispatch, and the
early-return rendering logic becomes a function into a `View` type.
JavaScript truthiness on optional strings is made explicit (`truthyStr`,
`jsOr`), since the source branches on it (`entity?.nodeId`,
`!!entity?.description`, the `||` chain over error messages).
-/

/-- JavaScript truthiness of an optional string: an absent (undefined) value
and the empty string are falsy, every other string is truthy. -/
def truthyStr : Option String → Bool
  | some s => s != ""
  | none => false

/-- The managed record (`interface Entity`, Categories.tsx lines 51-55): all
three fields are optional. `nodeId` is the spec's recordKey (the opaque remote
reference used by update/delete), `id` the display identity. -/
structure Entity where
  nodeId : Option String
  id : Option Int
  description : Option String
deriving DecidableEq

/-- The shape of a Load result (`interface AllEntity`, lines 47-49). -/
structure AllEntity where
  nodes : List Entity
deriving DecidableEq

/-- The queries of this component; GET_ALL is the list query that every
mutation re-fetches. -/
inductive QueryName
  | GET_ALL
deriving DecidableEq

/-- The slice of a useMutation options object that Categories.tsx sets: the
list of queries to re-fetch once the mutation settles. -/
structure MutationConfig where
  refetchQueries : List QueryName
deriving DecidableEq

/-- Options passed to `useMutation(ADD_ENTITY, ...)` (lines 68-70). -/
def addEntityOptions : MutationConfig :=
  { refetchQueries := [QueryName.GET_ALL] }

/-- Options passed to `useMutation(DELETE_ENTITY, ...)` (lines 71-73). -/
def deleteEntityOptions : MutationConfig :=
  { refetchQueries := [QueryName.GET_ALL] }

/-- Options passed to `useMutation(UPDATE_ENTITY, ...)` (lines 74-76). -/
def updateEntityOptions : MutationConfig :=
  { refetchQueries := [QueryName.GET_ALL] }

/-- The three write operations of the controller. -/
inductive WriteOp
  | create
  | update
  | delete
deriving DecidableEq

/-- Which mutation configuration each write operation is dispatched with:
create via addEntity, update via updateEntity, delete via deleteEntity. -/
def configFor : WriteOp → MutationConfig
  | WriteOp.create => addEntityOptions
  | WriteOp.update => updateEntityOptions
  | WriteOp.delete => deleteEntityOptions

/-- How a write settles: with success or with failure. -/
inductive Outcome
  | success
  | failure
deriving DecidableEq

/-- Observable events of one write cycle: the write being issued, the write
settling, and a re-issue of the list query (a Load). -/
inductive Event
  | writeIssued (op : WriteOp)
  | writeSettled (op : WriteOp) (outcome : Outcome)
  | loadIssued
deriving DecidableEq

/-- Modelled from the spec: the mutation transport (Apollo Client's
useMutation runtime honouring `refetchQueries`) is not among the repository's
source files; per the spec's side-effect contract (section 4.2 and P2), once
the write settles — with success or with failure alike — each query named in
the mutation's refetchQueries list is re-issued exactly once, strictly after
settlement. -/
def runMutation (cfg : MutationConfig) (op : WriteOp) (outcome : Outcome) :
    List Event :=
  [Event.writeIssued op, Event.writeSettled op outcome] ++
    cfg.refetchQueries.map (fun _ => Event.loadIssued)

/-- The event trace of a sequence of write calls, each run with the
configuration the component gives its operation. -/
def runWrites : List (WriteOp × Outcome) → List Event
  | [] => []
  | (op, outcome) :: rest =>
      runMutation (configFor op) op outcome ++ runWrites rest

/-- The number of Load (list re-fetch) events in a trace. -/
def countLoads (events : List Event) : Nat :=
  events.countP (fun e =>
    match e with
    | Event.loadIssued => true
    | _ => false)

/-- The List Controller's own state, per the two useState hooks (lines
60-61): `displayModal` is the spec's editorOpen, `entity` the spec's draft. -/
structure ControllerState where
  displayModal : Bool
  entity : Option Entity
deriving DecidableEq

/-- A dispatched remote write call, with the variables the component passes
(lines 95-102 and 130). -/
inductive WriteCall
  | create (description : Option String)
  | update (nodeId : String) (description : Option String)
  | delete (nodeId : Option String)
deriving DecidableEq

/-- `handleSave` (lines 90-104): first close the modal, then dispatch the
update mutation when `entity?.nodeId` is truthy (with the draft's nodeId and
description), otherwise the create mutation (with `entity?.description`). -/
def handleSave (st : ControllerState) : ControllerState × WriteCall :=
  let closed := { st with displayModal := false }
  match st.entity with
  | some e =>
      match e.nodeId with
      | some k =>
          if k != "" then (closed, WriteCall.update k e.description)
          else (closed, WriteCall.create e.description)
      | none => (closed, WriteCall.create e.description)
  | none => (closed, WriteCall.create none)

/-- The enabled flag handed to the modal's save action (line 147):
`!!entity?.description`. -/
def enableSave (st : ControllerState) : Bool :=
  truthyStr (st.entity.bind Entity.description)

/-- The Delete button's click handler of one rendered row (lines 128-132):
dispatch the delete mutation with that row's nodeId; no state hook is
called, so the controller state is returned unchanged. -/
def deleteRow (st : ControllerState) (record : Entity) :
    ControllerState × WriteCall :=
  (st, WriteCall.delete record.nodeId)

/-- The description input's onChange handler in EntityDetails (line 215):
`setEntity(\x7b ...entity, description: e.target.value \x7d)` — the draft is
replaced by a spread copy carrying the new description; spreading an
undefined entity contributes no fields. -/
def onDescriptionChange (entity : Option Entity) (v : String) : Entity :=
  match entity with
  | some e => { e with description := some v }
  | none => { nodeId := none, id := none, description := some v }

/-- JavaScript `||` on two optional strings: the left value unless it is
falsy (absent or empty), in which case the right value. -/
def jsOr (a b : Option String) : Option String :=
  match a with
  | some s => if s != "" then some s else b
  | none => b

/-- The error message selection (lines 81-85): `error?.message ||
errorAdding?.message || errorDeleting?.message || errorUpdating?.message`.
An operation's error is modelled as `some message`. -/
def chooseMessage (loadErr addErr delErr updErr : Option String) :
    Option String :=
  jsOr loadErr (jsOr addErr (jsOr delErr updErr))

/-- What the component renders. -/
inductive View
  | loading
  | errorView (message : Option String)
  | noRecords
  | table (rows : List Entity)
deriving DecidableEq

/-- The early-return rendering structure of Categories (lines 79-88 and the
table at lines 139-194): the loading indicator while Load is pending; a
single error banner when any of the four operations carries an error; the
"No records found." text when the query produced no data object; otherwise
the table whose rows are exactly `data.allCategories.nodes`. -/
def render (loadPending : Bool) (loadErr addErr delErr updErr : Option String)
    (data : Option AllEntity) : View :=
  if loadPending then View.loading
  else if loadErr.isSome || addErr.isSome || delErr.isSome || updErr.isSome then
    View.errorView (chooseMessage loadErr addErr delErr updErr)
  else
    match data with
    | none => View.noRecords
    | some d => View.table d.nodes

lemma countLoads_append (a b : List Event) :
    countLoads (a ++ b) = countLoads a + countLoads b := by
  simp [countLoads, List.countP_append]

/-- C1: for every write operation (create, update, delete), whether it
settles with success or with failure, the mutation's configuration re-fetches
exactly the list query, so exactly one Load is issued, strictly after the
write settles and unconditionally; over any sequence of writes the number of
Loads issued equals the number of writes. -/
theorem write_settle_one_reload :
    (∀ (op : WriteOp) (outcome : Outcome),
      runMutation (configFor op) op outcome =
        [Event.writeIssued op, Event.writeSettled op outcome,
          Event.loadIssued]) ∧
    (∀ writes : List (WriteOp × Outcome),
      countLoads (runWrites writes) = writes.length) := by
  have hone : ∀ (op : WriteOp) (outcome : Outcome),
      runMutation (configFor op) op outcome =
        [Event.writeIssued op, Event.writeSettled op outcome,
          Event.loadIssued] := by
    intro op outcome
    cases op <;> rfl
  refine ⟨hone, ?_⟩
  intro writes
  induction writes with
  | nil => rfl
  | cons head rest ih =>
      obtain ⟨op, outcome⟩ := head
      have h1 : countLoads (runMutation (configFor op) op outcome) = 1 := by
        rw [hone op outcome]
        rfl
      simp [runWrites, countLoads_append, h1, ih]
      omega

/-- C2 counterexample: Load settled with no error and a data object whose
record list is empty, yet the component renders the table (with zero rows),
not the no-records indicator. -/
theorem render_empty_list_shows_table :
    render false none none none none (some { nodes := [] }) =
      View.table [] ∧
    View.table [] ≠ View.noRecords := by
  exact ⟨rfl, by decide⟩

/-- C2 amended: the no-records indicator is rendered exactly when Load
completed with no error but produced no data object at all; when a data
object is present the table is rendered with one row per record — in
particular an empty record list yields a table with zero rows, not the
no-records indicator. -/
theorem render_noRecords_on_missing_data :
    render false none none none none none = View.noRecords ∧
    ∀ nodes : List Entity,
      render false none none none none (some { nodes := nodes }) =
        View.table nodes := by
  exact ⟨rfl, fun _ => rfl⟩

/-- C3 counterexample: all four operations have failed simultaneously, but
Load's error message is the empty string, so the displayed message is
Create's, not Load's. -/
theorem render_error_priority_cex :
    render false (some "") (some "boom") (some "x") (some "y") none =
      View.errorView (some "boom") ∧
    (some "boom" : Option String) ≠ some "" := by
  exact ⟨by decide, by decide⟩

/-- C3 amended: whenever at least one of Load, Create, Delete, Update carries
an error, the view is a single error banner (the table is suppressed) whose
message is the truthy `||` chain over the messages in the order [Load,
Create, Delete, Update]; in particular whenever Load has failed with a
non-empty message — so in particular when all four have failed and Load's
message is non-empty — the displayed message is Load's. -/
theorem render_error_priority (l a d u : Option String)
    (data : Option AllEntity) :
    ((l.isSome ∨ a.isSome ∨ d.isSome ∨ u.isSome) →
      render false l a d u data =
        View.errorView (chooseMessage l a d u)) ∧
    (∀ m : String, m ≠ "" → chooseMessage (some m) a d u = some m) := by
  constructor
  · intro h
    have hb : (l.isSome || a.isSome || d.isSome || u.isSome) = true := by
      rcases h with h | h | h | h <;> simp [h]
    simp [render, hb]
  · intro m hm
    have hb : (m != "") = true := by simpa using hm
    simp [chooseMessage, jsOr, hb]

/-- C4 counterexample: a draft whose recordKey is defined but equal to the
empty string dispatches Create, not Update — so "invokes Update iff the
recordKey is defined at call time" fails on the code. -/
theorem handleSave_defined_empty_key_creates :
    (handleSave
        { displayModal := true,
          entity := some
            { nodeId := some "", id := none,
              description := some "Veg" } }).2 =
      WriteCall.create (some "Veg") ∧
    (Option.some "").isSome = true := by
  exact ⟨rfl, rfl⟩

/-- C4 amended: save() dispatches Update (with the draft's recordKey and
description) iff the draft's recordKey is defined and non-empty (JS-truthy)
at call time; otherwise — recordKey absent or empty, draft absent included —
it dispatches Create (with the draft's description). It returns exactly one
write call, so it never dispatches both. -/
theorem handleSave_dispatch (st : ControllerState) :
    (∀ k : String, st.entity.bind Entity.nodeId = some k → k ≠ "" →
      (handleSave st).2 =
        WriteCall.update k (st.entity.bind Entity.description)) ∧
    (truthyStr (st.entity.bind Entity.nodeId) = false →
      (handleSave st).2 =
        WriteCall.create (st.entity.bind Entity.description)) := by
  obtain ⟨modal, entity⟩ := st
  cases entity with
  | none =>
      refine ⟨?_, fun _ => rfl⟩
      intro k hk
      simp at hk
  | some e =>
      cases hn : e.nodeId with
      | none =>
          refine ⟨?_, ?_⟩
          · intro k hk
            simp [hn] at hk
          · intro _
            simp [handleSave, hn]
      | some k0 =>
          refine ⟨?_, ?_⟩
          · intro k hk hne
            simp [hn] at hk
            subst hk
            simp [handleSave, hn, hne]
          · intro hf
            simp [truthyStr, hn] at hf
            simp [handleSave, hn, hf]

/-- C5: the save action's enabled flag is true iff the draft's description is
defined and non-empty; with an empty or undefined description (in particular
with no draft at all) the flag is false, so the modal's save action is not
invocable. -/
theorem enableSave_iff_nonempty_description (st : ControllerState) :
    enableSave st = true ↔
      ∃ s : String,
        st.entity.bind Entity.description = some s ∧ s ≠ "" := by
  cases hd : st.entity.bind Entity.description with
  | none => simp [enableSave, truthyStr, hd]
  | some s =>
      by_cases hs : s = "" <;>
        simp [enableSave, truthyStr, hd, hs]

/-- C6: save() sets the modal-open flag to false unconditionally: for every
starting state the controller state after handleSave has displayModal =
false, independent of which write was dispatched — and the settlement outcome
of that write is not even an input of the transition, so the editor is closed
before the write's result is known and regardless of it. -/
theorem handleSave_closes_editor (st : ControllerState) :
    (handleSave st).1.displayModal = false := by
  obtain ⟨modal, entity⟩ := st
  cases entity with
  | none => rfl
  | some e =>
      cases hn : e.nodeId with
      | none => simp [handleSave, hn]
      | some k =>
          by_cases hk : (k != "") = true <;>
            simp [handleSave, hn, hk]

/-- C7: every keystroke in the description input replaces the draft with a
shallow copy whose description is the new input value while nodeId
(recordKey) and id are unchanged (an absent draft contributes absent
fields). -/
theorem onDescriptionChange_shallow_copy (draft : Option Entity)
    (v : String) :
    (onDescriptionChange draft v).description = some v ∧
    (onDescriptionChange draft v).nodeId = draft.bind Entity.nodeId ∧
    (onDescriptionChange draft v).id = draft.bind Entity.id := by
  cases draft <;> exact ⟨rfl, rfl, rfl⟩

/-- C8: the Delete action of a rendered row dispatches delete with exactly
that row's recordKey (nodeId), and the editor state — displayModal and the
draft entity — is left untouched. -/
theorem deleteRow_dispatch (st : ControllerState) (record : Entity) :
    (deleteRow st record).2 = WriteCall.delete record.nodeId ∧
    (deleteRow st record).1.displayModal = st.displayModal ∧
    (deleteRow st record).1.entity = st.entity := by
  exact ⟨rfl, rfl, rfl⟩

/-- C9: handleSave is total even on an absent draft (the embedding is a total
function, mirroring that the optional-chaining accesses cannot throw): with
no draft it dispatches Create with an undefined description and never the
Update branch. -/
theorem handleSave_no_draft (modal : Bool) :
    (handleSave { displayModal := modal, entity := none }).2 =
      WriteCall.create none ∧
    ∀ (k : String) (d : Option String),
      (handleSave { displayModal := modal, entity := none }).2 ≠
        WriteCall.update k d := by
  refine ⟨rfl, ?_⟩
  intro k d h
  simp [handleSave] at h

/-- C10: the displayed message is chosen by truthiness chaining, not by mere
presence of an error: a failing operation whose message is the empty string
is skipped — the chain with an empty Load message equals the chain with no
Load error at all, and the displayed message falls through to the first
failing operation with a non-empty message. -/
theorem chooseMessage_truthy_fallthrough (a d u : Option String)
    (m : String) (hm : m ≠ "") :
    chooseMessage (some "") a d u = chooseMessage none a d u ∧
    chooseMessage (some "") (some m) d u = some m ∧
    chooseMessage (some "") (some "") (some m) u = some m ∧
    chooseMessage (some "") (some "") (some "") (some m) = some m := by
  have hb : (m != "") = true := by simpa using hm
  refine ⟨rfl, ?_, ?_, ?_⟩ <;> simp [chooseMessage, jsOr, hb]

/-- Witness for C10 at concrete messages: an empty Load message falls through
to Create's non-empty message. -/
theorem chooseMessage_truthy_fallthrough_witness :
    chooseMessage (some "") (some "boom") none none = some "boom" :=
  (chooseMessage_truthy_fallthrough none none none "boom"
    (by decide)).2.1
